import Mathlib

/-!
Verification of the feedback-aggregation worker
(`src/my-first-worker/src/index.js`, `src/workflow.js`).

The worker's handlers are embedded as pure Lean functions.  Network effects
(the embedding service, the vector index query result, the per-item
embed-and-upsert outcome of the backfill, the urgency classifier's model
response) are passed in as explicit parameters, so each theorem quantifies
over every possible outcome of those calls.  JavaScript numbers appearing
here (similarity scores, confidence values) are modelled as rationals; ids
are modelled by their string form, which is the join key between the
relational store and the vector index.
-/

namespace FeedbackWorker

/-- A row of the `feedback` table.  `id` is stored in its string form: the
vector index uses `feedbackId.toString()` as the key, and the handler
compares ids as strings (`match.id !== feedbackId`). -/
structure FeedbackRecord where
  id : String
  source : String
  message : String
  sentiment : String
  deriving Repr, DecidableEq

/-- One ranked match returned by `env.VECTORIZE.query`. -/
structure VectorMatch where
  id : String
  score : ℚ
  deriving Repr, DecidableEq

/-- One element of the `scores` array of the similar-feedback response:
`{id: match.id, score: match.score}`. -/
structure ScoreEntry where
  id : String
  score : ℚ
  deriving Repr, DecidableEq

/-- The similarity threshold `0.6` of the source, as the exact rational
6/10 (`mkRat` rather than a scientific literal so that proofs by `decide`
can evaluate it). -/
def scoreThreshold : ℚ := mkRat 6 10

/-- The match filter of `handleSimilarFeedback`, applied identically when
building `similarIds` (line 432) and the `scores` array (line 451):
`matches.filter(m => m.id !== feedbackId && m.score >= 0.6).slice(0, 5)`. -/
def survivingMatches (feedbackId : String) (matchList : List VectorMatch) :
    List VectorMatch :=
  (matchList.filter (fun m => m.id ≠ feedbackId ∧ m.score ≥ scoreThreshold)).take 5

/-- `similarIds`: the ids of the surviving matches
(`.map(match => match.id)` after the filter and slice). -/
def similarIds (feedbackId : String) (matchList : List VectorMatch) :
    List String :=
  (survivingMatches feedbackId matchList).map (·.id)

/-- The hydrating query `SELECT * FROM feedback WHERE id IN (...)`: rows of
the store whose id occurs in the id list, in table order (the query has no
ORDER BY clause; SQLite scans in rowid order, which the store list models). -/
def getByIds (store : List FeedbackRecord) (ids : List String) :
    List FeedbackRecord :=
  store.filter (fun r => r.id ∈ ids)

/-- The JSON body and status produced by `handleSimilarFeedback`.  A field
of the body that a branch does not emit is `none` (e.g. the zero-match
branch emits `message` but no `scores` key). -/
structure SimilarResponse where
  status : Nat
  original : Option FeedbackRecord
  similar : List FeedbackRecord
  scores : Option (List ScoreEntry)
  message : Option String
  deriving Repr, DecidableEq

/-- `handleSimilarFeedback(url, env, corsHeaders)` with the two external
call results made explicit: `store` is the `feedback` table in rowid order
and `matchList` is the ranked result of `env.VECTORIZE.query` on the
re-embedded original message (topK 6).  The handler first runs
`SELECT * FROM feedback WHERE id = ?`; if no row exists it returns 404,
otherwise it filters and slices the matches, returning the message-only
body when no match survives and the hydrated rows plus parallel score list
otherwise. -/
def handleSimilarFeedback (store : List FeedbackRecord)
    (matchList : List VectorMatch) (feedbackId : String) : SimilarResponse :=
  match store.filter (fun r => r.id = feedbackId) with
  | [] =>
      { status := 404, original := none, similar := [], scores := none,
        message := some "Feedback not found" }
  | orig :: _ =>
      let ids := similarIds feedbackId matchList
      if ids.length = 0 then
        { status := 200, original := some orig, similar := [], scores := none,
          message := some "No similar feedback found (minimum 60% similarity required)" }
      else
        { status := 200, original := some orig,
          similar := getByIds store ids,
          scores := some ((survivingMatches feedbackId matchList).map
            (fun m => { id := m.id, score := m.score })),
          message := none }

/-- A row as read by the backfill query
`SELECT id, message, source, sentiment FROM feedback ORDER BY id`; only the
identity matters for the accounting, so the row type is reused. -/
abbrev BackfillRow := FeedbackRecord

/-- The JSON body and status produced by `handleBackfillEmbeddings`.
`errors` and `total` are `none` on the empty-store branch, which emits
only `success`, `message` and `processed`. -/
structure BackfillResponse where
  status : Nat
  success : Bool
  message : String
  processed : Nat
  errors : Option Nat
  total : Option Nat
  deriving Repr, DecidableEq

/-- The batch partition of the backfill loop, driven by explicit fuel so
the recursion is structural (the loop advances by `batchSize = 5`, so
`l.length` steps of fuel always suffice):
`for (let i = 0; i < allFeedback.length; i += batchSize)` with
`batch = allFeedback.slice(i, i + batchSize)`. -/
def batchLoop {α : Type} : Nat → List α → List (List α)
  | _, [] => []
  | 0, _ :: _ => []
  | fuel + 1, x :: xs => ((x :: xs).take 5) :: batchLoop fuel ((x :: xs).drop 5)

/-- The list of batches `allFeedback.slice(i, i + 5)` for
`i = 0, 5, 10, …`. -/
def batches {α : Type} (l : List α) : List (List α) :=
  batchLoop l.length l

/-- One batch of `batchPromises`: each item's embed-and-upsert either
succeeds (`ok item = true`, `processed++`) or throws and is caught
(`errors++`).  JavaScript is single-threaded, so the concurrently awaited
increments of one batch interleave without lost updates; the fold records
their combined effect on the two counters. -/
def processBatch {α : Type} (ok : α → Bool) (batch : List α)
    (acc : Nat × Nat) : Nat × Nat :=
  batch.foldl (fun pe item => if ok item then (pe.1 + 1, pe.2) else (pe.1, pe.2 + 1)) acc

/-- The final `(processed, errors)` pair of the backfill loop: the batches
are folded in order, each updating the two counters. -/
def backfillCounts (allFeedback : List BackfillRow)
    (ok : BackfillRow → Bool) : Nat × Nat :=
  (batches allFeedback).foldl (fun acc batch => processBatch ok batch acc) (0, 0)

/-- `handleBackfillEmbeddings(env, corsHeaders)` with the external calls
made explicit: `allFeedback` is the result of the initial SELECT and
`ok row` tells whether that row's `generateEmbedding` + `VECTORIZE.insert`
succeeded.  An empty result short-circuits with the `processed: 0` body;
otherwise the batches are processed in order and the final counters are
reported with the row total. -/
def handleBackfillEmbeddings (allFeedback : List BackfillRow)
    (ok : BackfillRow → Bool) : BackfillResponse :=
  if allFeedback.length = 0 then
    { status := 200, success := true, message := "No feedback to backfill",
      processed := 0, errors := none, total := none }
  else
    let counts := backfillCounts allFeedback ok
    { status := 200, success := true,
      message := "Backfill complete: " ++ toString counts.1 ++
        " embeddings created, " ++ toString counts.2 ++ " errors",
      processed := counts.1, errors := some counts.2,
      total := some allFeedback.length }

/-- The fields of the JSON object produced by `JSON.parse` on the cleaned
urgency response, as accessed by `analyzeUrgency`: each property access
(`analysis.level`, …) yields `none` when the property is absent.  String
properties carry strings and `confidence` a number, matching the shape the
classifier prompt requests. -/
structure ParsedAnalysis where
  level : Option String
  confidence : Option ℚ
  reason : Option String
  category : Option String
  deriving Repr, DecidableEq

/-- The observable outcome of the urgency classification attempt inside
the `try` block: either some step threw (the `env.AI.run` call failing, or
`JSON.parse` on the code-fence-stripped response text), or the parse
succeeded and produced an object. -/
inductive ClassifierOutcome where
  | throws : ClassifierOutcome
  | parsed : ParsedAnalysis → ClassifierOutcome
  deriving Repr, DecidableEq

/-- JavaScript `v || d` for a string-valued property: `undefined` and the
empty string are falsy and select the default. -/
def strOrDefault (v : Option String) (d : String) : String :=
  match v with
  | none => d
  | some s => if s = "" then d else s

/-- JavaScript `v || d` for a number-valued property: `undefined` and `0`
are falsy and select the default. -/
def numOrDefault (v : Option ℚ) (d : ℚ) : ℚ :=
  match v with
  | none => d
  | some q => if q = 0 then d else q

/-- The result object of `analyzeUrgency`. -/
structure UrgencyAssessment where
  level : String
  confidence : ℚ
  reason : String
  category : String
  deriving Repr, DecidableEq

/-- `analyzeUrgency(message, sentiment)` with the model interaction made
explicit.  On a successful parse each field is taken from the parsed
object with a `||` fallback; on any throw the catch block returns the
deterministic sentiment-based fallback. -/
def analyzeUrgency (outcome : ClassifierOutcome) (sentiment : String) :
    UrgencyAssessment :=
  match outcome with
  | .parsed a =>
      { level := strOrDefault a.level "NORMAL",
        confidence := numOrDefault a.confidence (mkRat 1 2),
        reason := strOrDefault a.reason "No specific reason provided",
        category := strOrDefault a.category "General" }
  | .throws =>
      { level := if sentiment = "negative" then "HIGH" else "NORMAL",
        confidence := mkRat 1 2,
        reason := "Fallback classification based on sentiment",
        category := "General" }

/-- The observable result of `FeedbackNotificationWorkflow.run`: the names
of the `step.do` calls that were executed, in order, and the returned
object. -/
structure WorkflowRunResult where
  steps : List String
  success : Bool
  urgency : String
  notified : Bool
  deriving Repr, DecidableEq

/-- `FeedbackNotificationWorkflow.run(event, step)` with the checkpointed
result of the first step made explicit: `urgency` is the value returned by
`step.do('analyze-urgency', ...)`.  The second step
`send-slack-notification` runs exactly when the guard
`urgency.level === 'CRITICAL' || urgency.level === 'HIGH'` holds, and the
returned `notified` field re-evaluates the same condition. -/
def runWorkflow (urgency : UrgencyAssessment) : WorkflowRunResult :=
  let isUrgent := urgency.level = "CRITICAL" ∨ urgency.level = "HIGH"
  { steps := if isUrgent
      then ["analyze-urgency", "send-slack-notification"]
      else ["analyze-urgency"],
    success := true,
    urgency := urgency.level,
    notified := decide isUrgent }

/-! Sample data used by witnesses and counterexamples. -/

/-- A sample stored row with id "1". -/
def rec1 : FeedbackRecord :=
  { id := "1", source := "Discord", message := "The app keeps crashing",
    sentiment := "negative" }

/-- A sample stored row with id "2". -/
def rec2 : FeedbackRecord :=
  { id := "2", source := "Support", message := "App crashes on startup",
    sentiment := "negative" }

/-- A sample stored row with id "3". -/
def rec3 : FeedbackRecord :=
  { id := "3", source := "GitHub", message := "Crash when exporting",
    sentiment := "negative" }

/-! Helper lemmas about the match filter. -/

theorem mem_survivingMatches {fid : String} {ml : List VectorMatch}
    {m : VectorMatch} (h : m ∈ survivingMatches fid ml) :
    m ∈ ml ∧ m.id ≠ fid ∧ scoreThreshold ≤ m.score := by
  have h' := List.mem_of_mem_take h
  rw [List.mem_filter] at h'
  refine ⟨h'.1, ?_, ?_⟩
  · have := h'.2
    simp only [decide_eq_true_eq] at this
    exact this.1
  · have := h'.2
    simp only [decide_eq_true_eq] at this
    exact this.2

theorem survivingMatches_sublist (fid : String) (ml : List VectorMatch) :
    List.Sublist (survivingMatches fid ml) ml :=
  (List.take_sublist _ _).trans (List.filter_sublist _)

theorem length_survivingMatches_le (fid : String) (ml : List VectorMatch) :
    (survivingMatches fid ml).length ≤ 5 :=
  (List.length_take_le _ _)

theorem mem_similarIds {fid : String} {ml : List VectorMatch} {x : String}
    (h : x ∈ similarIds fid ml) : x ≠ fid := by
  simp only [similarIds, List.mem_map] at h
  obtain ⟨m, hm, rfl⟩ := h
  exact (mem_survivingMatches hm).2.1

/-! Structural lemmas about `handleSimilarFeedback`'s response. -/

theorem handleSimilar_similar_mem {store : List FeedbackRecord}
    {ml : List VectorMatch} {fid : String} {r : FeedbackRecord}
    (h : r ∈ (handleSimilarFeedback store ml fid).similar) :
    r ∈ store ∧ r.id ∈ similarIds fid ml := by
  unfold handleSimilarFeedback at h
  split at h
  · simp at h
  · dsimp only at h
    split at h
    · simp at h
    · simp only [getByIds, List.mem_filter, decide_eq_true_eq] at h
      exact h

theorem handleSimilar_scores_eq {store : List FeedbackRecord}
    {ml : List VectorMatch} {fid : String} {l : List ScoreEntry}
    (h : (handleSimilarFeedback store ml fid).scores = some l) :
    l = (survivingMatches fid ml).map
      (fun m => { id := m.id, score := m.score }) := by
  unfold handleSimilarFeedback at h
  split at h
  · simp at h
  · dsimp only at h
    split at h
    · simp at h
    · simp only [Option.some.injEq] at h
      exact h.symm

theorem handleSimilar_scores_some_similar {store : List FeedbackRecord}
    {ml : List VectorMatch} {fid : String} {l : List ScoreEntry}
    (h : (handleSimilarFeedback store ml fid).scores = some l) :
    (handleSimilarFeedback store ml fid).similar =
      getByIds store (similarIds fid ml) := by
  unfold handleSimilarFeedback at h ⊢
  split at h
  · simp at h
  · dsimp only at h ⊢
    split at h
    all_goals rename_i hif
    · simp at h
    · simp [hif]

theorem handleSimilar_similar_eq (store : List FeedbackRecord)
    (ml : List VectorMatch) (fid : String) :
    (handleSimilarFeedback store ml fid).similar = [] ∨
    (handleSimilarFeedback store ml fid).similar =
      getByIds store (similarIds fid ml) := by
  unfold handleSimilarFeedback
  split
  · exact Or.inl rfl
  · dsimp only
    split
    · exact Or.inl rfl
    · exact Or.inr rfl

/-- C1: no entry of `similar` and no entry of `scores` ever carries the
requested feedback id — the filter `match.id !== feedbackId` is applied
both when collecting the ids to hydrate and when building the score list,
for every store content and every ranked match list the index may return. -/
theorem C1_self_exclusion (store : List FeedbackRecord)
    (ml : List VectorMatch) (fid : String) :
    (∀ r ∈ (handleSimilarFeedback store ml fid).similar, r.id ≠ fid) ∧
    (∀ l, (handleSimilarFeedback store ml fid).scores = some l →
      ∀ s ∈ l, s.id ≠ fid) := by
  constructor
  · intro r hr
    exact mem_similarIds (handleSimilar_similar_mem hr).2
  · intro l hl s hs
    rw [handleSimilar_scores_eq hl] at hs
    simp only [List.mem_map] at hs
    obtain ⟨m, hm, rfl⟩ := hs
    exact (mem_survivingMatches hm).2.1

/-- Witness for C1 at a concrete input: id "2" survives the query for
record "1", and neither the hydrated row nor the score entry carries "1". -/
theorem C1_self_exclusion_witness :
    rec2 ∈ (handleSimilarFeedback [rec1, rec2] [⟨"1", 1⟩, ⟨"2", mkRat 9 10⟩] "1").similar ∧
    rec2.id ≠ "1" ∧
    (handleSimilarFeedback [rec1, rec2] [⟨"1", 1⟩, ⟨"2", mkRat 9 10⟩] "1").scores =
      some [⟨"2", mkRat 9 10⟩] ∧
    ScoreEntry.id ⟨"2", mkRat 9 10⟩ ≠ "1" :=
  ⟨by decide,
   (C1_self_exclusion [rec1, rec2] [⟨"1", 1⟩, ⟨"2", mkRat 9 10⟩] "1").1 rec2 (by decide),
   by decide,
   (C1_self_exclusion [rec1, rec2] [⟨"1", 1⟩, ⟨"2", mkRat 9 10⟩] "1").2
     [⟨"2", mkRat 9 10⟩] (by decide) ⟨"2", mkRat 9 10⟩ (by decide)⟩

/-- C2: every entry of the `scores` list of a similar-feedback response has
score at least 0.6, for every possible ranked match list: matches below the
threshold are filtered out before the response is built. -/
theorem C2_score_threshold (store : List FeedbackRecord)
    (ml : List VectorMatch) (fid : String) :
    ∀ l, (handleSimilarFeedback store ml fid).scores = some l →
      ∀ s ∈ l, scoreThreshold ≤ s.score := by
  intro l hl s hs
  rw [handleSimilar_scores_eq hl] at hs
  simp only [List.mem_map] at hs
  obtain ⟨m, hm, rfl⟩ := hs
  exact (mem_survivingMatches hm).2.2

/-- Witness for C2 at a concrete input: the surviving entry has score
9/10 ≥ 0.6, while the 3/10 match was dropped. -/
theorem C2_score_threshold_witness :
    (handleSimilarFeedback [rec1, rec2] [⟨"2", mkRat 9 10⟩, ⟨"3", mkRat 3 10⟩] "1").scores =
      some [⟨"2", mkRat 9 10⟩] ∧
    scoreThreshold ≤ ScoreEntry.score ⟨"2", mkRat 9 10⟩ :=
  ⟨by decide,
   C2_score_threshold [rec1, rec2] [⟨"2", mkRat 9 10⟩, ⟨"3", mkRat 3 10⟩] "1"
     [⟨"2", mkRat 9 10⟩] (by decide) ⟨"2", mkRat 9 10⟩ (by decide)⟩

/-- Counterexample to C4 as stated: when zero matches survive, the body the
code builds is `{original, similar: [], message: ...}` — it has **no**
`scores` key at all, rather than `scores: []` as claimed (the match with
id "1" is dropped as the self-match and the 3/10 match falls below the
threshold). -/
theorem C4_counterexample :
    (handleSimilarFeedback [rec1] [⟨"1", 1⟩, ⟨"2", mkRat 3 10⟩] "1").status = 200 ∧
    (handleSimilarFeedback [rec1] [⟨"1", 1⟩, ⟨"2", mkRat 3 10⟩] "1").similar = [] ∧
    (handleSimilarFeedback [rec1] [⟨"1", 1⟩, ⟨"2", mkRat 3 10⟩] "1").scores = none ∧
    ¬ ((handleSimilarFeedback [rec1] [⟨"1", 1⟩, ⟨"2", mkRat 3 10⟩] "1").scores =
        some []) := by
  decide

/-- C4 (amended): when the id is found and zero matches survive the filter,
the handler returns a 200 response whose body is
`{original, similar: [], message: "No similar feedback found (minimum 60%
similarity required)"}` — with no `scores` field. -/
theorem C4_zero_match_response (store : List FeedbackRecord)
    (ml : List VectorMatch) (fid : String) (orig : FeedbackRecord)
    (rest : List FeedbackRecord)
    (hfound : store.filter (fun r => r.id = fid) = orig :: rest)
    (hempty : similarIds fid ml = []) :
    handleSimilarFeedback store ml fid =
      { status := 200, original := some orig, similar := [], scores := none,
        message := some "No similar feedback found (minimum 60% similarity required)" } := by
  unfold handleSimilarFeedback
  rw [hfound]
  simp [hempty]

/-- Witness for C4 (amended) at a concrete input. -/
theorem C4_zero_match_response_witness :
    ([rec1].filter (fun r => r.id = "1") = rec1 :: []) ∧
    similarIds "1" [⟨"1", 1⟩, ⟨"2", mkRat 3 10⟩] = [] ∧
    handleSimilarFeedback [rec1] [⟨"1", 1⟩, ⟨"2", mkRat 3 10⟩] "1" =
      { status := 200, original := some rec1, similar := [], scores := none,
        message := some "No similar feedback found (minimum 60% similarity required)" } :=
  ⟨by decide, by decide,
   C4_zero_match_response [rec1] [⟨"1", 1⟩, ⟨"2", mkRat 3 10⟩] "1" rec1 []
     (by decide) (by decide)⟩

/-! Length lemmas for the hydrating query. -/

theorem getByIds_id_nodup {store : List FeedbackRecord} {ids : List String}
    (h : (store.map FeedbackRecord.id).Nodup) :
    ((getByIds store ids).map FeedbackRecord.id).Nodup :=
  List.Nodup.sublist (List.Sublist.map FeedbackRecord.id
    (List.filter_sublist store)) h

theorem getByIds_id_subset {store : List FeedbackRecord} {ids : List String} :
    ∀ x ∈ (getByIds store ids).map FeedbackRecord.id, x ∈ ids := by
  intro x hx
  simp only [getByIds, List.mem_map, List.mem_filter, decide_eq_true_eq] at hx
  obtain ⟨r, ⟨_, hid⟩, rfl⟩ := hx
  exact hid

theorem getByIds_length_le {store : List FeedbackRecord} {ids : List String}
    (h : (store.map FeedbackRecord.id).Nodup) :
    (getByIds store ids).length ≤ ids.length := by
  have := List.Subperm.length_le
    ((@getByIds_id_nodup store ids h).subperm
      (fun x hx => @getByIds_id_subset store ids x hx))
  simpa using this

theorem getByIds_length_eq {store : List FeedbackRecord} {ids : List String}
    (h : (store.map FeedbackRecord.id).Nodup) (hids : ids.Nodup)
    (hcov : ∀ x ∈ ids, ∃ r ∈ store, r.id = x) :
    (getByIds store ids).length = ids.length := by
  refine Nat.le_antisymm (getByIds_length_le h) ?_
  have hsub : ids ⊆ (getByIds store ids).map FeedbackRecord.id := by
    intro x hx
    obtain ⟨r, hr, rfl⟩ := hcov x hx
    simp only [getByIds, List.mem_map, List.mem_filter, decide_eq_true_eq]
    exact ⟨r, ⟨hr, hx⟩, rfl⟩
  have := List.Subperm.length_le (hids.subperm hsub)
  simpa using this

theorem similarIds_nodup {fid : String} {ml : List VectorMatch}
    (h : (ml.map VectorMatch.id).Nodup) : (similarIds fid ml).Nodup :=
  List.Nodup.sublist
    (List.Sublist.map VectorMatch.id (survivingMatches_sublist fid ml)) h

/-- Counterexample to C3 as stated: when the vector index returns an id for
which the relational store has no row (here id "2", a stale vector), the
surviving score entry is reported but the hydrating IN-query finds no row,
so `scores.length = 1` while `similar.length = 0`. -/
theorem C3_counterexample :
    (handleSimilarFeedback [rec1] [⟨"2", mkRat 9 10⟩] "1").status = 200 ∧
    (handleSimilarFeedback [rec1] [⟨"2", mkRat 9 10⟩] "1").scores =
      some [⟨"2", mkRat 9 10⟩] ∧
    (handleSimilarFeedback [rec1] [⟨"2", mkRat 9 10⟩] "1").similar = [] ∧
    ¬ (((handleSimilarFeedback [rec1] [⟨"2", mkRat 9 10⟩] "1").scores.getD []).length =
        (handleSimilarFeedback [rec1] [⟨"2", mkRat 9 10⟩] "1").similar.length) := by
  decide

/-- C3 (amended): over every index result and every store with unique row
ids, `similar.length ≤ 5` and `scores.length ≤ 5` always hold, and
`scores.length = similar.length` holds under the additional assumptions
that the index's match ids are distinct and every surviving match id has a
row in the store — the assumption the original claim explicitly dropped,
and under which it fails. -/
theorem C3_bound_amended (store : List FeedbackRecord)
    (ml : List VectorMatch) (fid : String)
    (hstore : (store.map FeedbackRecord.id).Nodup) :
    (handleSimilarFeedback store ml fid).similar.length ≤ 5 ∧
    (∀ l, (handleSimilarFeedback store ml fid).scores = some l →
      l.length ≤ 5) ∧
    ((ml.map VectorMatch.id).Nodup →
      (∀ x ∈ similarIds fid ml, ∃ r ∈ store, r.id = x) →
      ∀ l, (handleSimilarFeedback store ml fid).scores = some l →
        (handleSimilarFeedback store ml fid).similar.length = l.length) := by
  have hids_len : (similarIds fid ml).length ≤ 5 := by
    simpa [similarIds] using length_survivingMatches_le fid ml
  refine ⟨?_, ?_, ?_⟩
  · rcases handleSimilar_similar_eq store ml fid with h | h
    · simp [h]
    · rw [h]
      exact le_trans (getByIds_length_le hstore) hids_len
  · intro l hl
    rw [handleSimilar_scores_eq hl]
    simpa [similarIds] using hids_len
  · intro hml hcov l hl
    rw [handleSimilar_scores_some_similar hl,
      getByIds_length_eq hstore (similarIds_nodup hml) hcov,
      handleSimilar_scores_eq hl]
    simp [similarIds]

/-- Witness for C3 (amended) at a concrete input: store rows "1","2","3",
matches "3" (0.9) and "2" (0.8); both surviving ids have rows, and both
lists have length 2. -/
theorem C3_bound_amended_witness :
    (([rec1, rec2, rec3].map FeedbackRecord.id).Nodup) ∧
    (([(⟨"3", mkRat 9 10⟩ : VectorMatch), ⟨"2", mkRat 8 10⟩].map VectorMatch.id).Nodup) ∧
    (∀ x ∈ similarIds "1" [⟨"3", mkRat 9 10⟩, ⟨"2", mkRat 8 10⟩],
      ∃ r ∈ [rec1, rec2, rec3], r.id = x) ∧
    (handleSimilarFeedback [rec1, rec2, rec3]
      [⟨"3", mkRat 9 10⟩, ⟨"2", mkRat 8 10⟩] "1").similar.length ≤ 5 ∧
    (handleSimilarFeedback [rec1, rec2, rec3]
        [⟨"3", mkRat 9 10⟩, ⟨"2", mkRat 8 10⟩] "1").similar.length =
      (([⟨"3", mkRat 9 10⟩, ⟨"2", mkRat 8 10⟩] : List ScoreEntry)).length :=
  ⟨by decide, by decide, by decide,
   (C3_bound_amended [rec1, rec2, rec3]
     [⟨"3", mkRat 9 10⟩, ⟨"2", mkRat 8 10⟩] "1" (by decide)).1,
   (C3_bound_amended [rec1, rec2, rec3]
     [⟨"3", mkRat 9 10⟩, ⟨"2", mkRat 8 10⟩] "1" (by decide)).2.2
     (by decide) (by decide) [⟨"3", mkRat 9 10⟩, ⟨"2", mkRat 8 10⟩] (by decide)⟩

/-! Accounting lemmas for the backfill loop. -/

theorem batchLoop_flatten {α : Type} :
    ∀ (fuel : Nat) (l : List α), l.length ≤ fuel →
      (batchLoop fuel l).flatten = l := by
  intro fuel
  induction fuel with
  | zero =>
      intro l h
      cases l with
      | nil => rfl
      | cons x xs => simp at h
  | succ n ih =>
      intro l h
      cases l with
      | nil => rfl
      | cons x xs =>
          rw [batchLoop, List.flatten_cons,
            ih ((x :: xs).drop 5)
              (by simp only [List.length_drop, List.length_cons] at h ⊢; omega)]
          exact List.take_append_drop 5 (x :: xs)

theorem batches_flatten {α : Type} (l : List α) : (batches l).flatten = l :=
  batchLoop_flatten l.length l (Nat.le_refl _)

theorem batches_length_sum {α : Type} (l : List α) :
    ((batches l).map List.length).sum = l.length := by
  rw [← List.length_flatten, batches_flatten]

theorem processBatch_sum {α : Type} (ok : α → Bool) (b : List α) :
    ∀ acc : Nat × Nat,
      (processBatch ok b acc).1 + (processBatch ok b acc).2 =
        acc.1 + acc.2 + b.length := by
  induction b with
  | nil => intro acc; simp [processBatch]
  | cons x xs ih =>
      intro acc
      simp only [processBatch, List.foldl_cons, List.length_cons] at ih ⊢
      by_cases h : ok x = true
      · rw [if_pos h, ih]
        omega
      · rw [if_neg h, ih]
        omega

theorem foldl_processBatch_sum {α : Type} (ok : α → Bool)
    (bs : List (List α)) :
    ∀ acc : Nat × Nat,
      ((bs.foldl (fun a b => processBatch ok b a) acc).1 +
        (bs.foldl (fun a b => processBatch ok b a) acc).2) =
        acc.1 + acc.2 + (bs.map List.length).sum := by
  induction bs with
  | nil => intro acc; simp
  | cons b bs ih =>
      intro acc
      simp only [List.foldl_cons, List.map_cons, List.sum_cons]
      rw [ih (processBatch ok b acc), processBatch_sum ok b acc]
      omega

/-- C5: for a non-empty store, where each row's embed-and-upsert either
succeeds or throws (the outcome function `ok`), the backfill response
satisfies `processed + errors = total` and `total` is the number of rows
read at call time; failures are counted per item and never abort the
remaining batches, which is what the batch fold models. -/
theorem C5_backfill_accounting (l : List BackfillRow)
    (ok : BackfillRow → Bool) (h : l ≠ []) :
    (handleBackfillEmbeddings l ok).total = some l.length ∧
    ∀ e, (handleBackfillEmbeddings l ok).errors = some e →
      (handleBackfillEmbeddings l ok).processed + e = l.length := by
  have hlen : ¬ (l.length = 0) := by simpa using h
  have hsum : (backfillCounts l ok).1 + (backfillCounts l ok).2 = l.length := by
    have := foldl_processBatch_sum ok (batches l) (0, 0)
    rw [batches_length_sum] at this
    simpa [backfillCounts] using this
  unfold handleBackfillEmbeddings
  simp only [hlen, if_false]
  refine ⟨trivial, ?_⟩
  intro e he
  simp only [Option.some.injEq] at he
  rw [← he]
  exact hsum

/-- Witness for C5 at a concrete input: two rows, one of which fails, give
`processed = 1`, `errors = 1`, `total = 2`. -/
theorem C5_backfill_accounting_witness :
    ([rec1, rec2] : List BackfillRow) ≠ [] ∧
    (handleBackfillEmbeddings [rec1, rec2] (fun r => r.id == "1")).total =
      some 2 ∧
    (handleBackfillEmbeddings [rec1, rec2] (fun r => r.id == "1")).processed + 1 = 2 :=
  ⟨by decide,
   (C5_backfill_accounting [rec1, rec2] (fun r => r.id == "1") (by decide)).1,
   (C5_backfill_accounting [rec1, rec2] (fun r => r.id == "1") (by decide)).2
     1 (by decide)⟩

/-- Counterexample to C6 as stated: on an empty store the code returns
`{success: true, message: "No feedback to backfill", processed: 0}` — the
body carries `processed = 0` but has **no** `errors` or `total` keys, so it
does not contain `errors == 0` and `total == 0` as the claim requires. -/
theorem C6_counterexample :
    (handleBackfillEmbeddings [] (fun _ => true)).processed = 0 ∧
    (handleBackfillEmbeddings [] (fun _ => true)).errors = none ∧
    (handleBackfillEmbeddings [] (fun _ => true)).total = none ∧
    ¬ ((handleBackfillEmbeddings [] (fun _ => true)).errors = some 0 ∧
       (handleBackfillEmbeddings [] (fun _ => true)).total = some 0) := by
  decide

/-- C6 (amended): on an empty store the backfill returns a 200 response
whose body is `{success: true, message: "No feedback to backfill",
processed: 0}`; the `errors` and `total` fields are absent, not zero. -/
theorem C6_empty_backfill (ok : BackfillRow → Bool) :
    handleBackfillEmbeddings [] ok =
      { status := 200, success := true, message := "No feedback to backfill",
        processed := 0, errors := none, total := none } := by
  rfl

/-- C7: whenever the urgency classification throws — the upstream AI call
failing or `JSON.parse` failing on the code-fence-stripped response — the
catch block returns exactly level HIGH with confidence 0.5 for negative
input sentiment and exactly level NORMAL with confidence 0.5 otherwise;
the error never escapes the classifier (the embedding is total). -/
theorem C7_urgency_fallback (sentiment : String) :
    (sentiment = "negative" →
      analyzeUrgency .throws sentiment =
        { level := "HIGH", confidence := mkRat 1 2,
          reason := "Fallback classification based on sentiment",
          category := "General" }) ∧
    (sentiment ≠ "negative" →
      analyzeUrgency .throws sentiment =
        { level := "NORMAL", confidence := mkRat 1 2,
          reason := "Fallback classification based on sentiment",
          category := "General" }) := by
  constructor
  · intro h
    simp [analyzeUrgency, h]
  · intro h
    simp [analyzeUrgency, h]

/-- Witness for C7 at the two concrete sentiments "negative" and
"positive". -/
theorem C7_urgency_fallback_witness :
    analyzeUrgency .throws "negative" =
      { level := "HIGH", confidence := mkRat 1 2,
        reason := "Fallback classification based on sentiment",
        category := "General" } ∧
    ("positive" : String) ≠ "negative" ∧
    analyzeUrgency .throws "positive" =
      { level := "NORMAL", confidence := mkRat 1 2,
        reason := "Fallback classification based on sentiment",
        category := "General" } :=
  ⟨(C7_urgency_fallback "negative").1 rfl,
   by decide,
   (C7_urgency_fallback "positive").2 (by decide)⟩

/-- Counterexample to C8 as stated: a model response that parses as
well-formed JSON carrying `level: "BANANAS"` and `confidence: 3.7` is
passed through unmodified (`analysis.level || 'NORMAL'` keeps any
truthy string, `analysis.confidence || 0.5` keeps any nonzero number), so
the produced assessment has a level outside {CRITICAL, HIGH, NORMAL} and a
confidence above 1. -/
theorem C8_counterexample :
    ((analyzeUrgency
        (.parsed ⟨some "BANANAS", some (mkRat 37 10), some "model reason", some "Billing"⟩)
        "neutral").level ≠ "CRITICAL" ∧
     (analyzeUrgency
        (.parsed ⟨some "BANANAS", some (mkRat 37 10), some "model reason", some "Billing"⟩)
        "neutral").level ≠ "HIGH" ∧
     (analyzeUrgency
        (.parsed ⟨some "BANANAS", some (mkRat 37 10), some "model reason", some "Billing"⟩)
        "neutral").level ≠ "NORMAL") ∧
    ¬ ((analyzeUrgency
        (.parsed ⟨some "BANANAS", some (mkRat 37 10), some "model reason", some "Billing"⟩)
        "neutral").confidence ≤ 1) := by
  decide

/-- C8 (amended): the assessment's level lies in {CRITICAL, HIGH, NORMAL}
exactly when the classification threw (fallback path) or the parsed
`level` field was absent, empty, or itself one of the three values; and
its confidence lies in [0,1] exactly when the classification threw or the
parsed `confidence` field was absent, zero, or itself in [0,1] — parsed
values outside those sets are passed through unmodified. -/
theorem C8_level_confidence_characterization (o : ClassifierOutcome)
    (s : String) :
    (((analyzeUrgency o s).level = "CRITICAL" ∨
      (analyzeUrgency o s).level = "HIGH" ∨
      (analyzeUrgency o s).level = "NORMAL") ↔
      (o = .throws ∨ ∃ a, o = .parsed a ∧
        (a.level = none ∨ a.level = some "" ∨ a.level = some "CRITICAL" ∨
         a.level = some "HIGH" ∨ a.level = some "NORMAL"))) ∧
    (((0 : ℚ) ≤ (analyzeUrgency o s).confidence ∧
      (analyzeUrgency o s).confidence ≤ 1) ↔
      (o = .throws ∨ ∃ a, o = .parsed a ∧
        (a.confidence = none ∨ a.confidence = some 0 ∨
         ∃ q, a.confidence = some q ∧ 0 ≤ q ∧ q ≤ 1))) := by
  have h0 : (0 : ℚ) ≤ mkRat 1 2 := by decide
  have h1 : (mkRat 1 2 : ℚ) ≤ 1 := by decide
  cases o with
  | throws =>
      constructor
      · constructor
        · intro _
          exact Or.inl rfl
        · intro _
          by_cases hs : s = "negative" <;> simp [analyzeUrgency, hs]
      · constructor
        · intro _
          exact Or.inl rfl
        · intro _
          exact ⟨h0, h1⟩
  | parsed a =>
      constructor
      · simp only [analyzeUrgency, strOrDefault, reduceCtorEq, false_or,
          ClassifierOutcome.parsed.injEq, exists_eq_left']
        cases hl : a.level with
        | none => simp
        | some lv =>
            by_cases he : lv = ""
            · simp [he]
            · simp [he]
      · simp only [analyzeUrgency, numOrDefault, reduceCtorEq, false_or,
          ClassifierOutcome.parsed.injEq, exists_eq_left']
        cases hc : a.confidence with
        | none =>
            constructor
            · intro _
              simp
            · intro _
              exact ⟨h0, h1⟩
        | some q =>
            by_cases hq : q = 0
            · subst hq
              simp only [if_pos rfl]
              constructor
              · intro _
                simp
              · intro _
                exact ⟨h0, h1⟩
            · simp only [if_neg hq, Option.some.injEq, reduceCtorEq,
                false_or]
              constructor
              · intro hin
                exact Or.inr ⟨q, rfl, hin⟩
              · intro hin
                rcases hin with h | ⟨q', hq', hrange⟩
                · exact absurd h hq
                · cases hq'
                  exact hrange

/-- C9: in every workflow run, the `send-slack-notification` step executes
exactly when the checkpointed urgency level is CRITICAL or HIGH, and for
any other level (NORMAL included) the step is absent from the executed
steps and the run completes with `notified = false`. -/
theorem C9_workflow_conditionality (u : UrgencyAssessment) :
    ("send-slack-notification" ∈ (runWorkflow u).steps ↔
      (u.level = "CRITICAL" ∨ u.level = "HIGH")) ∧
    (¬ (u.level = "CRITICAL" ∨ u.level = "HIGH") →
      (runWorkflow u).notified = false ∧
      "send-slack-notification" ∉ (runWorkflow u).steps) := by
  constructor
  · constructor
    · intro hmem
      by_contra hcond
      simp only [runWorkflow, if_neg hcond] at hmem
      simp at hmem
    · intro hcond
      simp [runWorkflow, if_pos hcond]
  · intro hcond
    constructor
    · simp [runWorkflow, hcond]
    · simp [runWorkflow, if_neg hcond]

/-- Witness for C9 at a concrete NORMAL assessment: the notification step
is skipped and `notified = false`. -/
theorem C9_workflow_conditionality_witness :
    ¬ (UrgencyAssessment.level ⟨"NORMAL", mkRat 1 2, "r", "General"⟩ = "CRITICAL" ∨
       UrgencyAssessment.level ⟨"NORMAL", mkRat 1 2, "r", "General"⟩ = "HIGH") ∧
    (runWorkflow ⟨"NORMAL", mkRat 1 2, "r", "General"⟩).notified = false ∧
    "send-slack-notification" ∉ (runWorkflow ⟨"NORMAL", mkRat 1 2, "r", "General"⟩).steps :=
  ⟨by decide,
   ((C9_workflow_conditionality ⟨"NORMAL", mkRat 1 2, "r", "General"⟩).2 (by decide)).1,
   ((C9_workflow_conditionality ⟨"NORMAL", mkRat 1 2, "r", "General"⟩).2 (by decide)).2⟩

/-- C10: the `scores` list is an order-preserving sublist of the index's
ranked matches (so a non-increasing match ranking yields a non-increasing
score list), while `similar` is a sublist of the store in table order; the
two lists correspond by id only, and at the concrete input below (matches
ranked "3" then "2", store rows in id order) the record at position 0 of
`similar` has id "2" while `scores[0].id = "3"`. -/
theorem C10_order_and_misalignment :
    (∀ (store : List FeedbackRecord) (ml : List VectorMatch) (fid : String)
      (l : List ScoreEntry),
      (handleSimilarFeedback store ml fid).scores = some l →
      List.Sublist l (ml.map (fun m => ({ id := m.id, score := m.score } : ScoreEntry))) ∧
      (ml.Pairwise (fun a b => b.score ≤ a.score) →
        l.Pairwise (fun a b => b.score ≤ a.score))) ∧
    (∀ (store : List FeedbackRecord) (ml : List VectorMatch) (fid : String),
      List.Sublist (handleSimilarFeedback store ml fid).similar store) ∧
    (((handleSimilarFeedback [rec1, rec2, rec3]
        [⟨"3", mkRat 9 10⟩, ⟨"2", mkRat 8 10⟩] "1").similar.head?.map
          FeedbackRecord.id = some "2") ∧
     (((handleSimilarFeedback [rec1, rec2, rec3]
        [⟨"3", mkRat 9 10⟩, ⟨"2", mkRat 8 10⟩] "1").scores.getD []).head?.map
          ScoreEntry.id = some "3") ∧
     ("2" : String) ≠ "3") := by
  refine ⟨?_, ?_, by decide⟩
  · intro store ml fid l hl
    rw [handleSimilar_scores_eq hl]
    constructor
    · exact List.Sublist.map _ (survivingMatches_sublist fid ml)
    · intro hml
      have hsurv : (survivingMatches fid ml).Pairwise
          (fun a b => b.score ≤ a.score) :=
        List.Pairwise.sublist (survivingMatches_sublist fid ml) hml
      exact List.pairwise_map.mpr hsurv
  · intro store ml fid
    rcases handleSimilar_similar_eq store ml fid with h | h
    · rw [h]
      exact List.nil_sublist store
    · rw [h]
      exact List.filter_sublist store

/-- Witness for C10 at a concrete input: the score list ["3" at 0.9, "2" at
0.8] is a sublist of the (non-increasing) match ranking and is itself
non-increasing. -/
theorem C10_order_and_misalignment_witness :
    (handleSimilarFeedback [rec1, rec2, rec3]
        [⟨"3", mkRat 9 10⟩, ⟨"2", mkRat 8 10⟩] "1").scores =
      some [⟨"3", mkRat 9 10⟩, ⟨"2", mkRat 8 10⟩] ∧
    ([(⟨"3", mkRat 9 10⟩ : VectorMatch), ⟨"2", mkRat 8 10⟩].Pairwise
      (fun a b => b.score ≤ a.score)) ∧
    List.Sublist ([⟨"3", mkRat 9 10⟩, ⟨"2", mkRat 8 10⟩] : List ScoreEntry)
      ([(⟨"3", mkRat 9 10⟩ : VectorMatch), ⟨"2", mkRat 8 10⟩].map
        (fun m => ({ id := m.id, score := m.score } : ScoreEntry))) ∧
    (([⟨"3", mkRat 9 10⟩, ⟨"2", mkRat 8 10⟩] : List ScoreEntry).Pairwise
      (fun a b => b.score ≤ a.score)) :=
  ⟨by decide, by decide,
   (C10_order_and_misalignment.1 [rec1, rec2, rec3]
     [⟨"3", mkRat 9 10⟩, ⟨"2", mkRat 8 10⟩] "1"
     [⟨"3", mkRat 9 10⟩, ⟨"2", mkRat 8 10⟩] (by decide)).1,
   (C10_order_and_misalignment.1 [rec1, rec2, rec3]
     [⟨"3", mkRat 9 10⟩, ⟨"2", mkRat 8 10⟩] "1"
     [⟨"3", mkRat 9 10⟩, ⟨"2", mkRat 8 10⟩] (by decide)).2 (by decide)⟩

end FeedbackWorker
